import Mathlib

/-!
Shallow embedding of the MEXC exchange adapter of `barter-data`
(`src/barter-data/src/exchange/mexc/`): identifier construction, the
subscription request builder, and the event mappers for public trades and
top-of-book tickers, together with theorems about their behaviour.

Machine integers (`i32`, `i64`) are embedded as `Int`; the protobuf wire
strings stay `String`; fallible Rust functions returning `Result<_, DataError>`
become `Except DataError _`. External library functions (`f64::from_str`,
`rust_decimal::Decimal::from_str`, `chrono::DateTime::from_timestamp_millis`)
are modelled as executable Lean functions over exact arithmetic, documented at
their definitions.
-/

deriving instance DecidableEq for Except

namespace BarterMexc

/-- The Barter exchange identity; the adapter only ever uses `ExchangeId::Mexc`. -/
inductive ExchangeId where
  | mexc
deriving DecidableEq, Repr

/-- A UTC instant at millisecond precision: `chrono::DateTime<Utc>` as produced
by `DateTime::from_timestamp_millis`, embedded as its signed millisecond
Unix-epoch count. -/
structure DateTimeUtc where
  ms : Int
deriving DecidableEq, Repr

/-- `barter_instrument::Side`. -/
inductive Side where
  | buy
  | sell
deriving DecidableEq, Repr

/-- `barter-data`'s `DataError`; the MEXC adapter only constructs the
`Socket(String)` variant. -/
inductive DataError where
  | socket (msg : String)
deriving DecidableEq, Repr

/-- The value of a parsed `f64`, kept in exact arithmetic: either a finite
rational, an infinity, or NaN. Rounding of finite values to binary floats is
not modelled; no theorem below depends on it. -/
inductive FVal where
  | finite (q : Rat)
  | inf
  | negInf
  | nan
deriving DecidableEq, Repr

/-- Value of a list of decimal digit characters. -/
def digitsToNat (cs : List Char) : Nat :=
  cs.foldl (fun acc c => acc * 10 + (c.toNat - 48)) 0

/-- The exact rational `sign * digits * 10 ^ (exp - fracLen)`, built with
`mkRat` so that it evaluates by kernel reduction. -/
def decimalRat (neg : Bool) (digits : Nat) (fracLen : Nat) (exp : Int) : Rat :=
  let sign : Int := if neg then -1 else 1
  let e : Int := exp - (fracLen : Int)
  if 0 ≤ e then mkRat (sign * ((digits * 10 ^ e.toNat : Nat) : Int)) 1
  else mkRat (sign * ((digits : Nat) : Int)) ((10 : Nat) ^ (-e).toNat)

/-- Mantissa-with-exponent part of the `f64` grammar: digits, an optional
fractional part, and an optional decimal exponent, evaluated exactly. -/
def parseF64Num (neg : Bool) (cs : List Char) : Option Rat :=
  let (ip, r1) := cs.span Char.isDigit
  let (fp, r2) :=
    match r1 with
    | '.' :: r => r.span Char.isDigit
    | _ => ([], r1)
  if ip.isEmpty && fp.isEmpty then none
  else
    let digits := digitsToNat (ip ++ fp)
    match r2 with
    | [] => some (decimalRat neg digits fp.length 0)
    | c :: rest =>
      if c = 'e' ∨ c = 'E' then
        let (sgn, rest2) : Int × List Char :=
          match rest with
          | '+' :: r => (1, r)
          | '-' :: r => (-1, r)
          | r => (1, r)
        let (ds, rest3) := rest2.span Char.isDigit
        if ds.isEmpty ∨ ¬ rest3.isEmpty then none
        else some (decimalRat neg digits fp.length (sgn * (digitsToNat ds : Int)))
      else none

/-- The `f64` grammar after the optional leading sign: the case-insensitive
special values `inf` / `infinity` / `nan`, or a finite number. -/
def parseF64After (neg : Bool) (cs : List Char) : Option FVal :=
  let low := cs.map Char.toLower
  if low = "inf".data ∨ low = "infinity".data then
    some (if neg then FVal.negInf else FVal.inf)
  else if low = "nan".data then
    some FVal.nan
  else
    (parseF64Num neg cs).map FVal.finite

/-- Modelled external library (Rust `core`): `str::parse::<f64>`, i.e. the
`FromStr` grammar for `f64` — optional sign, then digits with optional
fraction and exponent or a special value — evaluated in exact arithmetic. -/
def parseF64 (s : String) : Option FVal :=
  match s.data with
  | [] => none
  | '+' :: rest => parseF64After false rest
  | '-' :: rest => parseF64After true rest
  | cs => parseF64After false cs

/-- Sign-stripped part of the `rust_decimal` grammar: digits with an optional
fractional part and nothing else (no exponent in its `FromStr`). -/
def parseDecimalDigits (neg : Bool) (cs : List Char) : Option Rat :=
  let (ip, r1) := cs.span Char.isDigit
  let (fp, r2) :=
    match r1 with
    | '.' :: r => r.span Char.isDigit
    | _ => ([], r1)
  if ip.isEmpty && fp.isEmpty then none
  else if ¬ r2.isEmpty then none
  else
    some (decimalRat neg (digitsToNat (ip ++ fp)) fp.length 0)

/-- Modelled external library (`rust_decimal`): `str::parse::<Decimal>` —
optional sign, digits, optional fractional digits — evaluated exactly. The
library's 96-bit precision / overflow limits are not modelled; no theorem
below evaluates it outside that range. -/
def parseDecimal (s : String) : Option Rat :=
  match s.data with
  | [] => none
  | '+' :: rest => parseDecimalDigits false rest
  | '-' :: rest => parseDecimalDigits true rest
  | cs => parseDecimalDigits false cs

/-- Modelled external library (`chrono`): smallest millisecond count accepted
by `DateTime::from_timestamp_millis`. -/
def chronoMinTimestampMs : Int := -8334601228800000

/-- Modelled external library (`chrono`): largest millisecond count accepted
by `DateTime::from_timestamp_millis`. -/
def chronoMaxTimestampMs : Int := 8210266876799999

/-- Modelled external library (`chrono`): `DateTime::from_timestamp_millis`,
`Some` exactly on the representable range. -/
def fromTimestampMillis (ms : Int) : Option DateTimeUtc :=
  if chronoMinTimestampMs ≤ ms ∧ ms ≤ chronoMaxTimestampMs then some ⟨ms⟩ else none

/-- `mexc_trade_type_to_side` from `src/exchange/mexc/trade.rs`: converts the
MEXC `trade_type` code to a Barter `Side`. -/
def mexc_trade_type_to_side (trade_type : Int) : Except DataError Side :=
  if trade_type = 1 then .ok .buy
  else if trade_type = 2 then .ok .sell
  else .error (.socket
    ("Unsupported MexcTrade::Side: unknown trade_type: " ++ toString trade_type))

/-- `ms_epoch_to_datetime_utc` from `src/exchange/mexc/trade.rs`: negative
inputs are rejected by an explicit check, then the remaining inputs go through
`DateTime::from_timestamp_millis`. -/
def ms_epoch_to_datetime_utc (ms : Int) : Except DataError DateTimeUtc :=
  if ms < 0 then
    .error (.socket
      ("Unsupported MexcTrade::Timestamp: invalid unix_epoch_ms (negative): " ++ toString ms))
  else
    match fromTimestampMillis ms with
    | some dt => .ok dt
    | none => .error (.socket
        ("Unsupported MexcTrade::Timestamp: invalid unix_epoch_ms: " ++ toString ms))

/-- `ms_epoch_to_datetime_utc` from `src/exchange/mexc/book/mod.rs`: the same
logic as the trade-side copy, with `MexcBookTicker` in the error messages. -/
def ms_epoch_to_datetime_utc_book (ms : Int) : Except DataError DateTimeUtc :=
  if ms < 0 then
    .error (.socket
      ("Unsupported MexcBookTicker::Timestamp: invalid unix_epoch_ms (negative): " ++ toString ms))
  else
    match fromTimestampMillis ms with
    | some dt => .ok dt
    | none => .error (.socket
        ("Unsupported MexcBookTicker::Timestamp: invalid unix_epoch_ms: " ++ toString ms))

/-- `proto::PublicDealsV3ApiItem`. Modelled from the spec: the protobuf
generated module (`include!("protobuf_gen/_.rs")`) is not in the sample; the
fields are reconstructed from §3/§6 of the spec and from every use site in
`trade.rs` (string price and quantity, `i32` trade type, `i64` millisecond
time). -/
structure PublicDealsV3ApiItem where
  price : String
  quantity : String
  trade_type : Int
  time : Int
deriving DecidableEq, Repr

/-- `proto::PublicAggreDealsV3ApiItem`; same fields as the raw-deals item
(see `PublicDealsV3ApiItem` for the modelling note). -/
structure PublicAggreDealsV3ApiItem where
  price : String
  quantity : String
  trade_type : Int
  time : Int
deriving DecidableEq, Repr

/-- `proto::PublicDealsV3Api`: a raw-deals batch. Modelled from the spec and
the use sites in `trade.rs`. -/
structure PublicDealsV3Api where
  deals : List PublicDealsV3ApiItem
  event_type : String
deriving DecidableEq, Repr

/-- `proto::PublicAggreDealsV3Api`: an aggregated-deals batch. -/
structure PublicAggreDealsV3Api where
  deals : List PublicAggreDealsV3ApiItem
  event_type : String
deriving DecidableEq, Repr

/-- `proto::PublicAggreBookTickerV3Api`: the top-of-book ticker body, with the
four wire strings read by `book/mod.rs`. -/
structure PublicAggreBookTickerV3Api where
  bid_price : String
  bid_quantity : String
  ask_price : String
  ask_quantity : String
deriving DecidableEq, Repr

/-- `proto::push_data_v3_api_wrapper::Body`. Modelled from the spec: the
envelope body is a tagged union of raw-deals batch, aggregated-deals batch,
top-of-book ticker, candle, or other tags. The mappers match only the three
variants they handle, so the candle payload and the remaining tags carry no
data here. -/
inductive Body where
  | publicDeals (api : PublicDealsV3Api)
  | publicAggreDeals (api : PublicAggreDealsV3Api)
  | publicAggreBookTicker (ticker : PublicAggreBookTickerV3Api)
  | publicSpotKline
  | otherBody
deriving DecidableEq, Repr

/-- `proto::PushDataV3ApiWrapper`. Modelled from the spec: optional
exchange-side creation and send times (millisecond epochs) and at most one
body variant; scalar fields not read by the mappers (`symbol`, `symbol_id`)
are omitted. -/
structure PushDataV3ApiWrapper where
  channel : String
  create_time : Option Int
  send_time : Option Int
  body : Option Body
deriving DecidableEq, Repr

/-- `PublicTrade` (the normalized trade `kind`), with price and amount as the
values produced by the `f64` parse. -/
structure PublicTrade where
  id : String
  price : FVal
  amount : FVal
  side : Side
deriving DecidableEq, Repr

/-- `books::Level`: one side of the top of book, in `Decimal` arithmetic. -/
structure Level where
  price : Rat
  amount : Rat
deriving DecidableEq, Repr

/-- `OrderBookL1` (the normalized top-of-book `kind`). -/
structure OrderBookL1 where
  last_update_time : DateTimeUtc
  best_bid : Option Level
  best_ask : Option Level
deriving DecidableEq, Repr

/-- `MarketEvent`: the normalized event shell shared by both mappers. -/
structure MarketEvent (InstrumentKey Kind : Type) where
  time_exchange : DateTimeUtc
  time_received : DateTimeUtc
  exchange : ExchangeId
  instrument : InstrumentKey
  kind : Kind
deriving DecidableEq, Repr

/-- `map_public_deals_item_to_market_event` from `trade.rs`: parse price and
quantity as `f64`, map the trade type to a side, convert the millisecond
timestamp, and assemble the normalized trade; the first failure wins. -/
def map_public_deals_item_to_market_event {InstrumentKey : Type}
    (exchange_id : ExchangeId) (instrument : InstrumentKey)
    (deal_item : PublicDealsV3ApiItem) (time_received : DateTimeUtc) :
    Except DataError (MarketEvent InstrumentKey PublicTrade) :=
  match parseF64 deal_item.price with
  | none => .error (.socket
      ("Failed to parse price from MEXC deal: \x27" ++ deal_item.price
        ++ "\x27, error: invalid float literal"))
  | some price =>
  match parseF64 deal_item.quantity with
  | none => .error (.socket
      ("Failed to parse quantity from MEXC deal: \x27" ++ deal_item.quantity
        ++ "\x27, error: invalid float literal"))
  | some amount =>
  match mexc_trade_type_to_side deal_item.trade_type with
  | .error e => .error e
  | .ok side =>
  match ms_epoch_to_datetime_utc deal_item.time with
  | .error e => .error e
  | .ok exchange_time =>
    .ok { time_exchange := exchange_time
          time_received := time_received
          exchange := exchange_id
          instrument := instrument
          kind := { id := toString deal_item.time
                    price := price
                    amount := amount
                    side := side } }

/-- `map_public_aggre_deals_item_to_market_event` from `trade.rs`: identical
to the raw-deals item mapper, with "aggregated deal" in the parse messages. -/
def map_public_aggre_deals_item_to_market_event {InstrumentKey : Type}
    (exchange_id : ExchangeId) (instrument : InstrumentKey)
    (deal_item : PublicAggreDealsV3ApiItem) (time_received : DateTimeUtc) :
    Except DataError (MarketEvent InstrumentKey PublicTrade) :=
  match parseF64 deal_item.price with
  | none => .error (.socket
      ("Failed to parse price from MEXC aggregated deal: \x27" ++ deal_item.price
        ++ "\x27, error: invalid float literal"))
  | some price =>
  match parseF64 deal_item.quantity with
  | none => .error (.socket
      ("Failed to parse quantity from MEXC aggregated deal: \x27" ++ deal_item.quantity
        ++ "\x27, error: invalid float literal"))
  | some amount =>
  match mexc_trade_type_to_side deal_item.trade_type with
  | .error e => .error e
  | .ok side =>
  match ms_epoch_to_datetime_utc deal_item.time with
  | .error e => .error e
  | .ok exchange_time =>
    .ok { time_exchange := exchange_time
          time_received := time_received
          exchange := exchange_id
          instrument := instrument
          kind := { id := toString deal_item.time
                    price := price
                    amount := amount
                    side := side } }

/-- `impl From<(ExchangeId, InstrumentKey, PushDataV3ApiWrapper)> for
MarketIter<InstrumentKey, PublicTrade>` from `trade.rs`: one result per deal
item of a `PublicDeals` or `PublicAggreDeals` body, pushed in order; every
other body (or no body) yields no results. `Utc::now()` is passed in as
`time_received`. -/
def marketIterPublicTrades {InstrumentKey : Type}
    (exchange_id : ExchangeId) (instrument : InstrumentKey)
    (wrapper : PushDataV3ApiWrapper) (time_received : DateTimeUtc) :
    List (Except DataError (MarketEvent InstrumentKey PublicTrade)) :=
  match wrapper.body with
  | some (.publicDeals deals_api) =>
      deals_api.deals.map (fun deal_item =>
        map_public_deals_item_to_market_event exchange_id instrument deal_item time_received)
  | some (.publicAggreDeals aggre_deals_api) =>
      aggre_deals_api.deals.map (fun deal_item =>
        map_public_aggre_deals_item_to_market_event exchange_id instrument deal_item time_received)
  | _ => []

/-- `parse_level` from `book/mod.rs`: parse a (price, quantity) string pair
as `Decimal`s into a `Level`. -/
def parse_level (price : String) (qty : String) : Except DataError Level :=
  match parseDecimal price with
  | none => .error (.socket
      ("Failed to parse price from MEXC agg book ticker: \x27" ++ price
        ++ "\x27, error: Invalid decimal: unknown character"))
  | some p =>
    match parseDecimal qty with
    | none => .error (.socket
        ("Failed to parse quantity from MEXC agg book ticker: \x27" ++ qty
          ++ "\x27, error: Invalid decimal: unknown character"))
    | some a => .ok { price := p, amount := a }

/-- The exchange-time resolution inlined in the book mapper
(`book/mod.rs` lines 60-64):
`wrapper.send_time.or(wrapper.create_time).and_then(|ms|
ms_epoch_to_datetime_utc(ms).ok()).unwrap_or(time_received)`. -/
def resolveExchangeTime (send_time create_time : Option Int)
    (time_received : DateTimeUtc) : DateTimeUtc :=
  let chosen : Option Int :=
    match send_time with
    | some s => some s
    | none => create_time
  match chosen with
  | some ms =>
    match (ms_epoch_to_datetime_utc_book ms).toOption with
    | some dt => dt
    | none => time_received
  | none => time_received

/-- `impl From<(ExchangeId, InstrumentKey, PushDataV3ApiWrapper)> for
MarketIter<InstrumentKey, OrderBookL1>` from `book/mod.rs`: on a
`PublicAggreBookTicker` body, resolve the exchange time, parse bid then ask
level, returning a single error on the first failure, else a single event;
any other body yields no results. -/
def marketIterOrderBookL1 {InstrumentKey : Type}
    (exchange_id : ExchangeId) (instrument : InstrumentKey)
    (wrapper : PushDataV3ApiWrapper) (time_received : DateTimeUtc) :
    List (Except DataError (MarketEvent InstrumentKey OrderBookL1)) :=
  match wrapper.body with
  | some (.publicAggreBookTicker ticker) =>
    let exchange_time := resolveExchangeTime wrapper.send_time wrapper.create_time time_received
    match parse_level ticker.bid_price ticker.bid_quantity with
    | .error err => [.error err]
    | .ok bidLvl =>
      match parse_level ticker.ask_price ticker.ask_quantity with
      | .error err => [.error err]
      | .ok askLvl =>
        [.ok { time_exchange := exchange_time
               time_received := time_received
               exchange := exchange_id
               instrument := instrument
               kind := { last_update_time := exchange_time
                         best_bid := some bidLvl
                         best_ask := some askLvl } }]
  | _ => []

/-- `ExchangeSub<MexcChannel, MexcMarket>`: one (channel, market) subscription
pair; `MexcChannel` and `MexcMarket` are both string newtypes
(`channel.rs` / `market.rs`), flattened to their string contents. -/
structure ExchangeSub where
  channel : String
  market : String
deriving DecidableEq, Repr

/-- `WsMessage`: an outbound websocket frame; the adapter only builds the
text variant. -/
inductive WsMessage where
  | text (payload : String)
deriving DecidableEq, Repr

/-- `MexcAggInterval`. Modelled from the spec: the aggregation-interval
enumeration of the missing `subscription.rs` module ("one of a small closed
enumeration, e.g. \x2210 ms\x22 / \x22100 ms\x22"); `mod.rs` matches exactly
the two variants `Ms10` and `Ms100`. -/
inductive MexcAggInterval where
  | ms10
  | ms100
deriving DecidableEq, Repr

/-- `MexcAggInterval::default()`. Modelled from the spec: the default
aggregation interval is "100 ms" (§4.2). -/
def mexcAggIntervalDefault : MexcAggInterval := .ms100

/-- `Mexc::agg_interval_to_str` from `mod.rs`. -/
def agg_interval_to_str (interval : MexcAggInterval) : String :=
  match interval with
  | .ms10 => "10ms"
  | .ms100 => "100ms"

/-- `MexcWsMethod`. Modelled from the spec: the control-message method tag of
the missing `subscription.rs`; the only method used here serializes to
"SUBSCRIPTION" (§6). -/
inductive MexcWsMethod where
  | subscription
deriving DecidableEq, Repr

/-- `MexcWsSub`. Modelled from the spec: the subscription control message of
the missing `subscription.rs`, a method tag plus the list of topic strings. -/
structure MexcWsSub where
  method : MexcWsMethod
  params : List String
deriving DecidableEq, Repr

/-- Hexadecimal digit character for a value below 16. -/
def hexDigitChar (n : Nat) : Char :=
  if n < 10 then Char.ofNat (48 + n) else Char.ofNat (87 + (n - 10))

/-- Modelled external library (`serde_json`): escaping of one character inside
a JSON string literal. -/
def jsonEscapeChar (c : Char) : String :=
  if c = '"' then "\\\""
  else if c = '\\' then "\\\\"
  else if c = '\x08' then "\\b"
  else if c = '\x09' then "\\t"
  else if c = '\x0a' then "\\n"
  else if c = '\x0c' then "\\f"
  else if c = '\x0d' then "\\r"
  else if c.toNat < 32 then
    String.mk ['\\', 'u', '0', '0', hexDigitChar (c.toNat / 16), hexDigitChar (c.toNat % 16)]
  else String.mk [c]

/-- Modelled external library (`serde_json`): a JSON string literal. -/
def jsonEncodeString (s : String) : String :=
  "\"" ++ String.join (s.data.map jsonEscapeChar) ++ "\""

/-- Modelled from the spec: `serde_json::to_string` applied to a `MexcWsSub`
whose serde derive follows the control-plane grammar of §6,
a JSON object with a "method" tag and a "params" array of topic strings. -/
def serializeMexcWsSub (m : MexcWsSub) : String :=
  let methodStr :=
    match m.method with
    | .subscription => "SUBSCRIPTION"
  "\x7b\"method\":" ++ jsonEncodeString methodStr ++ ",\"params\":["
    ++ String.intercalate "," (m.params.map jsonEncodeString) ++ "]\x7d"

/-- `Mexc::requests` from `mod.rs`, with the serializer abstracted: an empty
input yields no frames; otherwise one topic string per pair is built with the
default interval, the control message is assembled and serialized, and a
serialization failure discards the request, yielding no frames. -/
def requestsWith (serialize : MexcWsSub → Except String String)
    (exchange_subs : List ExchangeSub) : List WsMessage :=
  if exchange_subs.isEmpty then []
  else
    let topics := exchange_subs.map (fun sub =>
      sub.channel ++ "@" ++ agg_interval_to_str mexcAggIntervalDefault ++ "@" ++ sub.market)
    let subscription_message : MexcWsSub := { method := .subscription, params := topics }
    match serialize subscription_message with
    | .ok text_payload => [WsMessage.text text_payload]
    | .error _ => []

/-- `Mexc::requests` with the concrete `serde_json` serializer model; on this
message shape `serde_json::to_string` always succeeds. -/
def requests (exchange_subs : List ExchangeSub) : List WsMessage :=
  requestsWith (fun m => .ok (serializeMexcWsSub m)) exchange_subs

/-- C7: the trade-type-to-side mapping is total on integers and a bijection on
{1, 2}: 1 maps to Buy, 2 maps to Sell, and every other integer code yields an
unsupported-value error whose message names the raw code. -/
theorem trade_type_to_side_total_bijection :
    mexc_trade_type_to_side 1 = .ok .buy ∧
    mexc_trade_type_to_side 2 = .ok .sell ∧
    ∀ t : Int, t ≠ 1 → t ≠ 2 →
      mexc_trade_type_to_side t = .error (.socket
        ("Unsupported MexcTrade::Side: unknown trade_type: " ++ toString t)) := by
  refine ⟨by decide, by decide, ?_⟩
  intro t h1 h2
  simp [mexc_trade_type_to_side, h1, h2]

/-- Witness for C7: the side mapping evaluated at the unsupported code 5. -/
theorem trade_type_to_side_total_bijection_witness :
    mexc_trade_type_to_side 5 = .error (.socket
      "Unsupported MexcTrade::Side: unknown trade_type: 5") :=
  trade_type_to_side_total_bijection.2.2 5 (by decide) (by decide)

/-- C8: both copies of the millisecond-epoch conversion fail exactly on
negative or unrepresentable inputs — a negative input hits the explicit
negativity check (its own distinct error message), a non-negative input beyond
the representable range hits the generic conversion error, and every
representable non-negative input m yields exactly the instant epoch + m
milliseconds. -/
theorem ms_epoch_conversion_spec (ms : Int) :
    (ms < 0 →
      ms_epoch_to_datetime_utc ms = .error (.socket
        ("Unsupported MexcTrade::Timestamp: invalid unix_epoch_ms (negative): " ++ toString ms)) ∧
      ms_epoch_to_datetime_utc_book ms = .error (.socket
        ("Unsupported MexcBookTicker::Timestamp: invalid unix_epoch_ms (negative): " ++ toString ms))) ∧
    (0 ≤ ms → ms ≤ chronoMaxTimestampMs →
      ms_epoch_to_datetime_utc ms = .ok ⟨ms⟩ ∧
      ms_epoch_to_datetime_utc_book ms = .ok ⟨ms⟩) ∧
    (0 ≤ ms → chronoMaxTimestampMs < ms →
      ms_epoch_to_datetime_utc ms = .error (.socket
        ("Unsupported MexcTrade::Timestamp: invalid unix_epoch_ms: " ++ toString ms)) ∧
      ms_epoch_to_datetime_utc_book ms = .error (.socket
        ("Unsupported MexcBookTicker::Timestamp: invalid unix_epoch_ms: " ++ toString ms))) := by
  refine ⟨?_, ?_, ?_⟩
  · intro h
    constructor <;> simp [ms_epoch_to_datetime_utc, ms_epoch_to_datetime_utc_book, h]
  · intro h0 h1
    have hneg : ¬ ms < 0 := by omega
    have hlo : chronoMinTimestampMs ≤ ms := by
      unfold chronoMinTimestampMs
      omega
    constructor <;>
      simp [ms_epoch_to_datetime_utc, ms_epoch_to_datetime_utc_book, fromTimestampMillis,
        hneg, hlo, h1]
  · intro h0 h2
    have hneg : ¬ ms < 0 := by omega
    have hhi : ¬ ms ≤ chronoMaxTimestampMs := by omega
    constructor <;>
      simp [ms_epoch_to_datetime_utc, ms_epoch_to_datetime_utc_book, fromTimestampMillis,
        hneg, hhi]

/-- Witness for C8: the conversion evaluated at a negative input, a
representable non-negative input, and a non-negative input beyond the
representable range. -/
theorem ms_epoch_conversion_spec_witness :
    ms_epoch_to_datetime_utc (-1) = .error (.socket
      "Unsupported MexcTrade::Timestamp: invalid unix_epoch_ms (negative): -1") ∧
    ms_epoch_to_datetime_utc 1609459200123 = .ok ⟨1609459200123⟩ ∧
    ms_epoch_to_datetime_utc 9000000000000000 = .error (.socket
      "Unsupported MexcTrade::Timestamp: invalid unix_epoch_ms: 9000000000000000") :=
  ⟨((ms_epoch_conversion_spec (-1)).1 (by decide)).1,
   ((ms_epoch_conversion_spec 1609459200123).2.1 (by decide) (by decide)).1,
   ((ms_epoch_conversion_spec 9000000000000000).2.2 (by decide) (by decide)).1⟩

/-- C5: the request builder yields zero frames on an empty input, and on a
non-empty input exactly one text frame carrying the "SUBSCRIPTION" method tag
and, in input order, one topic string `<channel>@100ms@<market>` per pair. -/
theorem requests_frames_spec (exchange_subs : List ExchangeSub) :
    (exchange_subs = [] → requests exchange_subs = []) ∧
    (exchange_subs ≠ [] →
      requests exchange_subs = [WsMessage.text
        ("\x7b\"method\":\"SUBSCRIPTION\",\"params\":["
          ++ String.intercalate ","
              ((exchange_subs.map (fun sub =>
                sub.channel ++ "@" ++ "100ms" ++ "@" ++ sub.market)).map jsonEncodeString)
          ++ "]\x7d")]) := by
  constructor
  · intro h
    subst h
    rfl
  · intro h
    cases exchange_subs with
    | nil => exact absurd rfl h
    | cons a l => rfl

/-- Witness for C5: one pair with channel "C" and market "BTCUSDT" yields one
frame whose payload holds the method tag and the topic "C@100ms@BTCUSDT". -/
theorem requests_frames_spec_witness :
    ([({ channel := "C", market := "BTCUSDT" } : ExchangeSub)] ≠ []) ∧
    requests [{ channel := "C", market := "BTCUSDT" }] = [WsMessage.text
      "\x7b\"method\":\"SUBSCRIPTION\",\"params\":[\"C@100ms@BTCUSDT\"]\x7d"] :=
  ⟨by decide, (requests_frames_spec [{ channel := "C", market := "BTCUSDT" }]).2 (by decide)⟩

/-- C6: if serialization of the assembled subscription control message fails,
the request builder discards the request: it returns zero outbound frames,
and its return type carries no error channel to the caller. -/
theorem requests_serialization_failure_discards
    (serialize : MexcWsSub → Except String String)
    (exchange_subs : List ExchangeSub) (e : String)
    (hfail : serialize
        { method := .subscription
          params := exchange_subs.map (fun sub =>
            sub.channel ++ "@" ++ agg_interval_to_str mexcAggIntervalDefault ++ "@" ++ sub.market) }
      = .error e) :
    requestsWith serialize exchange_subs = [] := by
  cases exchange_subs with
  | nil => rfl
  | cons a l =>
    have hstep : requestsWith serialize (a :: l) =
        match serialize
          { method := .subscription
            params := (a :: l).map (fun sub =>
              sub.channel ++ "@" ++ agg_interval_to_str mexcAggIntervalDefault ++ "@" ++ sub.market) } with
        | .ok text_payload => [WsMessage.text text_payload]
        | .error _ => [] := rfl
    rw [hstep, hfail]

/-- Witness for C6: a serializer that fails on every message yields zero
outbound frames for a concrete non-empty subscription list. -/
theorem requests_serialization_failure_discards_witness :
    requestsWith (fun _ => Except.error "serialize failure")
      [{ channel := "C", market := "BTCUSDT" }] = [] :=
  requests_serialization_failure_discards _ _ "serialize failure" rfl

/-- C2: a raw-deals or aggregated-deals batch of N items maps to exactly the
pointwise image of the per-item mapper — N results, one per item in the
original order, each independently an event or an error, so a malformed item
never removes, reorders, or aborts its siblings. -/
theorem trade_batch_one_result_per_item {InstrumentKey : Type}
    (exchange_id : ExchangeId) (instrument : InstrumentKey)
    (wrapper : PushDataV3ApiWrapper) (time_received : DateTimeUtc) :
    (∀ api, wrapper.body = some (.publicDeals api) →
      marketIterPublicTrades exchange_id instrument wrapper time_received =
        api.deals.map (fun deal_item =>
          map_public_deals_item_to_market_event exchange_id instrument deal_item time_received) ∧
      (marketIterPublicTrades exchange_id instrument wrapper time_received).length
        = api.deals.length) ∧
    (∀ api, wrapper.body = some (.publicAggreDeals api) →
      marketIterPublicTrades exchange_id instrument wrapper time_received =
        api.deals.map (fun deal_item =>
          map_public_aggre_deals_item_to_market_event exchange_id instrument deal_item time_received) ∧
      (marketIterPublicTrades exchange_id instrument wrapper time_received).length
        = api.deals.length) := by
  constructor <;> intro api hb <;> constructor <;>
    simp [marketIterPublicTrades, hb]

/-- Witness for C2: an aggregated batch of three items whose middle item has a
malformed price yields three results in order — one parse error surrounded by
two successes. -/
theorem trade_batch_one_result_per_item_witness :
    marketIterPublicTrades ExchangeId.mexc ()
        { channel := "ch", create_time := none, send_time := none
          body := some (.publicAggreDeals
            { deals := [{ price := "3000.1", quantity := "0.1", trade_type := 2, time := 1000 },
                        { price := "bad", quantity := "0.05", trade_type := 1, time := 1000 },
                        { price := "3000.0", quantity := "0.05", trade_type := 1, time := 1000 }]
              event_type := "DEALS" }) } ⟨7⟩ =
      [map_public_aggre_deals_item_to_market_event ExchangeId.mexc ()
        { price := "3000.1", quantity := "0.1", trade_type := 2, time := 1000 } ⟨7⟩,
       map_public_aggre_deals_item_to_market_event ExchangeId.mexc ()
        { price := "bad", quantity := "0.05", trade_type := 1, time := 1000 } ⟨7⟩,
       map_public_aggre_deals_item_to_market_event ExchangeId.mexc ()
        { price := "3000.0", quantity := "0.05", trade_type := 1, time := 1000 } ⟨7⟩] ∧
    (marketIterPublicTrades ExchangeId.mexc ()
        { channel := "ch", create_time := none, send_time := none
          body := some (.publicAggreDeals
            { deals := [{ price := "3000.1", quantity := "0.1", trade_type := 2, time := 1000 },
                        { price := "bad", quantity := "0.05", trade_type := 1, time := 1000 },
                        { price := "3000.0", quantity := "0.05", trade_type := 1, time := 1000 }]
              event_type := "DEALS" }) } ⟨7⟩).length = 3 ∧
    map_public_aggre_deals_item_to_market_event ExchangeId.mexc ()
        { price := "bad", quantity := "0.05", trade_type := 1, time := 1000 } ⟨7⟩
      = .error (.socket
          "Failed to parse price from MEXC aggregated deal: \x27bad\x27, error: invalid float literal") ∧
    (map_public_aggre_deals_item_to_market_event ExchangeId.mexc ()
        { price := "3000.1", quantity := "0.1", trade_type := 2, time := 1000 } ⟨7⟩).isOk = true ∧
    (map_public_aggre_deals_item_to_market_event ExchangeId.mexc ()
        { price := "3000.0", quantity := "0.05", trade_type := 1, time := 1000 } ⟨7⟩).isOk = true :=
  ⟨((trade_batch_one_result_per_item ExchangeId.mexc ()
      { channel := "ch", create_time := none, send_time := none
        body := some (.publicAggreDeals
          { deals := [{ price := "3000.1", quantity := "0.1", trade_type := 2, time := 1000 },
                      { price := "bad", quantity := "0.05", trade_type := 1, time := 1000 },
                      { price := "3000.0", quantity := "0.05", trade_type := 1, time := 1000 }]
            event_type := "DEALS" }) } ⟨7⟩).2 _ rfl).1,
   ((trade_batch_one_result_per_item ExchangeId.mexc ()
      { channel := "ch", create_time := none, send_time := none
        body := some (.publicAggreDeals
          { deals := [{ price := "3000.1", quantity := "0.1", trade_type := 2, time := 1000 },
                      { price := "bad", quantity := "0.05", trade_type := 1, time := 1000 },
                      { price := "3000.0", quantity := "0.05", trade_type := 1, time := 1000 }]
            event_type := "DEALS" }) } ⟨7⟩).2 _ rfl).2,
   by decide, by decide, by decide⟩

/-- Counterexample for C3: the deal item with price string "-1" is emitted as
a successful normalized trade carrying the negative price -1, so a negative
decoded price is not rejected. -/
theorem trade_negative_price_emitted :
    map_public_deals_item_to_market_event ExchangeId.mexc ()
        { price := "-1", quantity := "1", trade_type := 1, time := 0 } ⟨7⟩ =
      .ok { time_exchange := ⟨0⟩, time_received := ⟨7⟩, exchange := .mexc, instrument := ()
            kind := { id := "0", price := .finite (-1), amount := .finite 1, side := .buy } } ∧
    ((-1 : Rat) < 0) := by
  exact ⟨by decide, by decide⟩

/-- C3 as amended: a successfully emitted trade's side is one of exactly Buy
and Sell, and its price and amount are exactly the values parsed from the wire
strings — the mapper performs no sign or finiteness validation, so negative or
non-finite parsed values pass through as successes. -/
theorem trade_success_fields_from_parse {InstrumentKey : Type}
    (exchange_id : ExchangeId) (instrument : InstrumentKey) (time_received : DateTimeUtc) :
    (∀ (item : PublicDealsV3ApiItem) (ev : MarketEvent InstrumentKey PublicTrade),
      map_public_deals_item_to_market_event exchange_id instrument item time_received = .ok ev →
      (ev.kind.side = .buy ∨ ev.kind.side = .sell) ∧
      parseF64 item.price = some ev.kind.price ∧
      parseF64 item.quantity = some ev.kind.amount) ∧
    (∀ (item : PublicAggreDealsV3ApiItem) (ev : MarketEvent InstrumentKey PublicTrade),
      map_public_aggre_deals_item_to_market_event exchange_id instrument item time_received = .ok ev →
      (ev.kind.side = .buy ∨ ev.kind.side = .sell) ∧
      parseF64 item.price = some ev.kind.price ∧
      parseF64 item.quantity = some ev.kind.amount) := by
  constructor
  · intro item ev h
    unfold map_public_deals_item_to_market_event at h
    split at h
    · exact Except.noConfusion h
    next p hp =>
      split at h
      · exact Except.noConfusion h
      next a ha =>
        split at h
        · exact Except.noConfusion h
        next s hs =>
          split at h
          · exact Except.noConfusion h
          next d hd =>
            injection h with h
            subst h
            refine ⟨?_, hp, ha⟩
            cases s
            · exact Or.inl rfl
            · exact Or.inr rfl
  · intro item ev h
    unfold map_public_aggre_deals_item_to_market_event at h
    split at h
    · exact Except.noConfusion h
    next p hp =>
      split at h
      · exact Except.noConfusion h
      next a ha =>
        split at h
        · exact Except.noConfusion h
        next s hs =>
          split at h
          · exact Except.noConfusion h
          next d hd =>
            injection h with h
            subst h
            refine ⟨?_, hp, ha⟩
            cases s
            · exact Or.inl rfl
            · exact Or.inr rfl

/-- Witness for C3 as amended: the negative-price item from the counterexample
satisfies the amended property — a valid side, with price and amount exactly
the parsed values, the price being the negative -1. -/
theorem trade_success_fields_from_parse_witness :
    (Side.buy = Side.buy ∨ Side.buy = Side.sell) ∧
    parseF64 "-1" = some (FVal.finite (-1)) ∧
    parseF64 "1" = some (FVal.finite 1) :=
  (trade_success_fields_from_parse ExchangeId.mexc () ⟨7⟩).1
    { price := "-1", quantity := "1", trade_type := 1, time := 0 }
    { time_exchange := ⟨0⟩, time_received := ⟨7⟩, exchange := .mexc, instrument := ()
      kind := { id := "0", price := .finite (-1), amount := .finite 1, side := .buy } }
    rfl

/-- C9: an envelope whose body is absent or is any variant other than the
trade batches (for the trade mapper) respectively the top-of-book ticker (for
the book mapper) yields an empty result sequence — no events and no errors. -/
theorem unmodeled_body_yields_empty {InstrumentKey : Type}
    (exchange_id : ExchangeId) (instrument : InstrumentKey)
    (wrapper : PushDataV3ApiWrapper) (time_received : DateTimeUtc) :
    ((∀ api, wrapper.body ≠ some (.publicDeals api)) →
     (∀ api, wrapper.body ≠ some (.publicAggreDeals api)) →
     marketIterPublicTrades exchange_id instrument wrapper time_received = []) ∧
    ((∀ t, wrapper.body ≠ some (.publicAggreBookTicker t)) →
     marketIterOrderBookL1 exchange_id instrument wrapper time_received = []) := by
  constructor
  · intro h1 h2
    cases hb : wrapper.body with
    | none => simp [marketIterPublicTrades, hb]
    | some b =>
      cases b with
      | publicDeals api => exact absurd hb (h1 api)
      | publicAggreDeals api => exact absurd hb (h2 api)
      | publicAggreBookTicker t => simp [marketIterPublicTrades, hb]
      | publicSpotKline => simp [marketIterPublicTrades, hb]
      | otherBody => simp [marketIterPublicTrades, hb]
  · intro h3
    cases hb : wrapper.body with
    | none => simp [marketIterOrderBookL1, hb]
    | some b =>
      cases b with
      | publicDeals api => simp [marketIterOrderBookL1, hb]
      | publicAggreDeals api => simp [marketIterOrderBookL1, hb]
      | publicAggreBookTicker t => exact absurd hb (h3 t)
      | publicSpotKline => simp [marketIterOrderBookL1, hb]
      | otherBody => simp [marketIterOrderBookL1, hb]

/-- Witness for C9: a candle envelope yields an empty result sequence from
both mappers. -/
theorem unmodeled_body_yields_empty_witness :
    marketIterPublicTrades ExchangeId.mexc ()
      { channel := "kline", create_time := some 1, send_time := some 2
        body := some .publicSpotKline } ⟨7⟩ = [] ∧
    marketIterOrderBookL1 ExchangeId.mexc ()
      { channel := "kline", create_time := some 1, send_time := some 2
        body := some .publicSpotKline } ⟨7⟩ = [] :=
  ⟨(unmodeled_body_yields_empty ExchangeId.mexc ()
      { channel := "kline", create_time := some 1, send_time := some 2
        body := some .publicSpotKline } ⟨7⟩).1 (by simp) (by simp),
   (unmodeled_body_yields_empty ExchangeId.mexc ()
      { channel := "kline", create_time := some 1, send_time := some 2
        body := some .publicSpotKline } ⟨7⟩).2 (by simp)⟩

/-- Case analysis of the book mapper's output: it is empty, a single error, or
a single event whose two levels are populated and whose times are the resolved
exchange time and the receipt time. Shared by the proofs below. -/
lemma marketIterOrderBookL1_shape {InstrumentKey : Type}
    (exchange_id : ExchangeId) (instrument : InstrumentKey)
    (wrapper : PushDataV3ApiWrapper) (time_received : DateTimeUtc) :
    marketIterOrderBookL1 exchange_id instrument wrapper time_received = [] ∨
    (∃ e, marketIterOrderBookL1 exchange_id instrument wrapper time_received
      = [Except.error e]) ∨
    (∃ bid ask, marketIterOrderBookL1 exchange_id instrument wrapper time_received
      = [Except.ok
          { time_exchange := resolveExchangeTime wrapper.send_time wrapper.create_time time_received
            time_received := time_received
            exchange := exchange_id
            instrument := instrument
            kind := { last_update_time :=
                        resolveExchangeTime wrapper.send_time wrapper.create_time time_received
                      best_bid := some bid
                      best_ask := some ask } }]) := by
  obtain ⟨ch, create_t, send_t, body⟩ := wrapper
  cases body with
  | none => exact Or.inl rfl
  | some b =>
    cases b with
    | publicDeals api => exact Or.inl rfl
    | publicAggreDeals api => exact Or.inl rfl
    | publicSpotKline => exact Or.inl rfl
    | otherBody => exact Or.inl rfl
    | publicAggreBookTicker t =>
      cases hbid : parse_level t.bid_price t.bid_quantity with
      | error e =>
        exact Or.inr (Or.inl ⟨e, by simp [marketIterOrderBookL1, hbid]⟩)
      | ok bl =>
        cases hask : parse_level t.ask_price t.ask_quantity with
        | error e =>
          exact Or.inr (Or.inl ⟨e, by simp [marketIterOrderBookL1, hbid, hask]⟩)
        | ok al =>
          exact Or.inr (Or.inr ⟨bl, al, by simp [marketIterOrderBookL1, hbid, hask]⟩)

/-- C10: the book mapper's output always has length at most one, and every
successfully emitted top-of-book event has both its best-bid and its best-ask
level populated. -/
theorem book_single_result_full_levels {InstrumentKey : Type}
    (exchange_id : ExchangeId) (instrument : InstrumentKey)
    (wrapper : PushDataV3ApiWrapper) (time_received : DateTimeUtc) :
    (marketIterOrderBookL1 exchange_id instrument wrapper time_received).length ≤ 1 ∧
    (∀ ev : MarketEvent InstrumentKey OrderBookL1,
      Except.ok ev ∈ marketIterOrderBookL1 exchange_id instrument wrapper time_received →
      ev.kind.best_bid.isSome = true ∧ ev.kind.best_ask.isSome = true) := by
  rcases marketIterOrderBookL1_shape exchange_id instrument wrapper time_received with
    h | ⟨e, h⟩ | ⟨bid, ask, h⟩
  · rw [h]
    exact ⟨by simp, by intro ev hm; simp at hm⟩
  · rw [h]
    refine ⟨by simp, ?_⟩
    intro ev hm
    simp at hm
  · rw [h]
    refine ⟨by simp, ?_⟩
    intro ev hm
    simp at hm
    subst hm
    exact ⟨rfl, rfl⟩

/-- Witness for C10: a concrete valid ticker envelope yields one event whose
two levels are both populated. -/
theorem book_single_result_full_levels_witness :
    (marketIterOrderBookL1 ExchangeId.mexc ()
      { channel := "ch", create_time := none, send_time := some 100
        body := some (.publicAggreBookTicker
          { bid_price := "100", bid_quantity := "1"
            ask_price := "101", ask_quantity := "2" }) } ⟨5⟩).length ≤ 1 ∧
    (({ time_exchange := ⟨100⟩, time_received := ⟨5⟩, exchange := .mexc, instrument := ()
        kind := { last_update_time := ⟨100⟩
                  best_bid := some { price := 100, amount := 1 }
                  best_ask := some { price := 101, amount := 2 } } }
      : MarketEvent Unit OrderBookL1).kind.best_bid.isSome = true ∧
     ({ time_exchange := ⟨100⟩, time_received := ⟨5⟩, exchange := .mexc, instrument := ()
        kind := { last_update_time := ⟨100⟩
                  best_bid := some { price := 100, amount := 1 }
                  best_ask := some { price := 101, amount := 2 } } }
      : MarketEvent Unit OrderBookL1).kind.best_ask.isSome = true) :=
  ⟨(book_single_result_full_levels ExchangeId.mexc ()
      { channel := "ch", create_time := none, send_time := some 100
        body := some (.publicAggreBookTicker
          { bid_price := "100", bid_quantity := "1"
            ask_price := "101", ask_quantity := "2" }) } ⟨5⟩).1,
   (book_single_result_full_levels ExchangeId.mexc ()
      { channel := "ch", create_time := none, send_time := some 100
        body := some (.publicAggreBookTicker
          { bid_price := "100", bid_quantity := "1"
            ask_price := "101", ask_quantity := "2" }) } ⟨5⟩).2 _ (by decide)⟩

/-- C4: on a top-of-book ticker envelope, a failure parsing either the
best-bid pair or the best-ask pair makes the whole output exactly one error
and no event, while success of both yields exactly one event carrying the
parsed levels, with `last_update_time` equal to the resolved exchange time. -/
theorem book_ticker_all_or_nothing {InstrumentKey : Type}
    (exchange_id : ExchangeId) (instrument : InstrumentKey)
    (wrapper : PushDataV3ApiWrapper) (time_received : DateTimeUtc)
    (t : PublicAggreBookTickerV3Api)
    (hb : wrapper.body = some (.publicAggreBookTicker t)) :
    (∀ e, parse_level t.bid_price t.bid_quantity = .error e →
      marketIterOrderBookL1 exchange_id instrument wrapper time_received = [.error e]) ∧
    (∀ bl e, parse_level t.bid_price t.bid_quantity = .ok bl →
      parse_level t.ask_price t.ask_quantity = .error e →
      marketIterOrderBookL1 exchange_id instrument wrapper time_received = [.error e]) ∧
    (∀ bl al, parse_level t.bid_price t.bid_quantity = .ok bl →
      parse_level t.ask_price t.ask_quantity = .ok al →
      marketIterOrderBookL1 exchange_id instrument wrapper time_received = [.ok
        { time_exchange := resolveExchangeTime wrapper.send_time wrapper.create_time time_received
          time_received := time_received
          exchange := exchange_id
          instrument := instrument
          kind := { last_update_time :=
                      resolveExchangeTime wrapper.send_time wrapper.create_time time_received
                    best_bid := some bl
                    best_ask := some al } }]) := by
  refine ⟨?_, ?_, ?_⟩
  · intro e hbid
    simp [marketIterOrderBookL1, hb, hbid]
  · intro bl e hbid hask
    simp [marketIterOrderBookL1, hb, hbid, hask]
  · intro bl al hbid hask
    simp [marketIterOrderBookL1, hb, hbid, hask]

/-- Witness for C4: bid=("100","1"), ask=("101","2") with valid send time 100
yields exactly one event with those levels and `last_update_time` 100; the
same ticker with unparseable ask quantity "abc" yields exactly one error. -/
theorem book_ticker_all_or_nothing_witness :
    marketIterOrderBookL1 ExchangeId.mexc ()
      { channel := "ch", create_time := none, send_time := some 100
        body := some (.publicAggreBookTicker
          { bid_price := "100", bid_quantity := "1"
            ask_price := "101", ask_quantity := "2" }) } ⟨5⟩ =
      [.ok { time_exchange := ⟨100⟩, time_received := ⟨5⟩, exchange := .mexc, instrument := ()
             kind := { last_update_time := ⟨100⟩
                       best_bid := some { price := 100, amount := 1 }
                       best_ask := some { price := 101, amount := 2 } } }] ∧
    marketIterOrderBookL1 ExchangeId.mexc ()
      { channel := "ch", create_time := none, send_time := some 100
        body := some (.publicAggreBookTicker
          { bid_price := "100", bid_quantity := "1"
            ask_price := "101", ask_quantity := "abc" }) } ⟨5⟩ =
      [.error (.socket
        "Failed to parse quantity from MEXC agg book ticker: \x27abc\x27, error: Invalid decimal: unknown character")] :=
  ⟨(book_ticker_all_or_nothing ExchangeId.mexc ()
      { channel := "ch", create_time := none, send_time := some 100
        body := some (.publicAggreBookTicker
          { bid_price := "100", bid_quantity := "1"
            ask_price := "101", ask_quantity := "2" }) } ⟨5⟩ _ rfl).2.2
      { price := 100, amount := 1 } { price := 101, amount := 2 } rfl rfl,
   (book_ticker_all_or_nothing ExchangeId.mexc ()
      { channel := "ch", create_time := none, send_time := some 100
        body := some (.publicAggreBookTicker
          { bid_price := "100", bid_quantity := "1"
            ask_price := "101", ask_quantity := "abc" }) } ⟨5⟩ _ rfl).2.1
      { price := 100, amount := 1 }
      (.socket
        "Failed to parse quantity from MEXC agg book ticker: \x27abc\x27, error: Invalid decimal: unknown character")
      rfl rfl⟩

/-- Counterexample for C1: an envelope whose send time is present but invalid
(-1) and whose create time is present and valid (1000) resolves the exchange
time to the receipt time 5, not to the instant 1000 the claim's fallback
chain demands — a valid create time is not consulted once send time is
present. -/
theorem book_time_fallback_counterexample :
    marketIterOrderBookL1 ExchangeId.mexc ()
      { channel := "ch", create_time := some 1000, send_time := some (-1)
        body := some (.publicAggreBookTicker
          { bid_price := "100", bid_quantity := "1"
            ask_price := "101", ask_quantity := "2" }) } ⟨5⟩ =
      [Except.ok
        { time_exchange := ⟨5⟩, time_received := ⟨5⟩, exchange := .mexc, instrument := ()
          kind := { last_update_time := ⟨5⟩
                    best_bid := some { price := 100, amount := 1 }
                    best_ask := some { price := 101, amount := 2 } } }] ∧
    ms_epoch_to_datetime_utc_book 1000 = .ok ⟨1000⟩ ∧
    (⟨5⟩ : DateTimeUtc) ≠ ⟨1000⟩ := by
  exact ⟨by decide, by decide, by decide⟩

/-- C1 as amended: the book mapper resolves `exchange_time` by preferring a
present send time, else a present create time; only the single selected
candidate is converted, and if its conversion fails the mapper falls directly
to the receipt time — a present-but-invalid send time is not superseded by a
valid create time. -/
theorem book_time_fallback_amended {InstrumentKey : Type}
    (exchange_id : ExchangeId) (instrument : InstrumentKey)
    (wrapper : PushDataV3ApiWrapper) (time_received : DateTimeUtc)
    (t : PublicAggreBookTickerV3Api)
    (hb : wrapper.body = some (.publicAggreBookTicker t))
    (bl al : Level)
    (hbid : parse_level t.bid_price t.bid_quantity = .ok bl)
    (hask : parse_level t.ask_price t.ask_quantity = .ok al) :
    marketIterOrderBookL1 exchange_id instrument wrapper time_received = [.ok
      { time_exchange := resolveExchangeTime wrapper.send_time wrapper.create_time time_received
        time_received := time_received
        exchange := exchange_id
        instrument := instrument
        kind := { last_update_time :=
                    resolveExchangeTime wrapper.send_time wrapper.create_time time_received
                  best_bid := some bl
                  best_ask := some al } }] ∧
    (∀ s d, wrapper.send_time = some s → ms_epoch_to_datetime_utc_book s = .ok d →
      resolveExchangeTime wrapper.send_time wrapper.create_time time_received = d) ∧
    (∀ s, wrapper.send_time = some s → (ms_epoch_to_datetime_utc_book s).toOption = none →
      resolveExchangeTime wrapper.send_time wrapper.create_time time_received = time_received) ∧
    (∀ c d, wrapper.send_time = none → wrapper.create_time = some c →
      ms_epoch_to_datetime_utc_book c = .ok d →
      resolveExchangeTime wrapper.send_time wrapper.create_time time_received = d) ∧
    (∀ c, wrapper.send_time = none → wrapper.create_time = some c →
      (ms_epoch_to_datetime_utc_book c).toOption = none →
      resolveExchangeTime wrapper.send_time wrapper.create_time time_received = time_received) ∧
    (wrapper.send_time = none → wrapper.create_time = none →
      resolveExchangeTime wrapper.send_time wrapper.create_time time_received = time_received) := by
  refine ⟨?_, ?_, ?_, ?_, ?_, ?_⟩
  · simp [marketIterOrderBookL1, hb, hbid, hask]
  · intro s d hs hd
    simp [resolveExchangeTime, hs, hd, Except.toOption]
  · intro s hs hnone
    simp [resolveExchangeTime, hs, hnone]
  · intro c d hs hc hd
    simp [resolveExchangeTime, hs, hc, hd, Except.toOption]
  · intro c hs hc hnone
    simp [resolveExchangeTime, hs, hc, hnone]
  · intro hs hc
    simp [resolveExchangeTime, hs, hc]

/-- Witness for C1 as amended: with send time -1 (present but invalid) and
create time 1000 (present and valid), the mapper emits one event stamped with
the receipt time 5. -/
theorem book_time_fallback_amended_witness :
    marketIterOrderBookL1 ExchangeId.mexc ()
      { channel := "ch", create_time := some 1000, send_time := some (-1)
        body := some (.publicAggreBookTicker
          { bid_price := "100", bid_quantity := "1"
            ask_price := "101", ask_quantity := "2" }) } ⟨5⟩ =
      [.ok { time_exchange := ⟨5⟩, time_received := ⟨5⟩, exchange := .mexc, instrument := ()
             kind := { last_update_time := ⟨5⟩
                       best_bid := some { price := 100, amount := 1 }
                       best_ask := some { price := 101, amount := 2 } } }] ∧
    resolveExchangeTime (some (-1)) (some 1000) ⟨5⟩ = ⟨5⟩ :=
  ⟨(book_time_fallback_amended ExchangeId.mexc ()
      { channel := "ch", create_time := some 1000, send_time := some (-1)
        body := some (.publicAggreBookTicker
          { bid_price := "100", bid_quantity := "1"
            ask_price := "101", ask_quantity := "2" }) } ⟨5⟩ _ rfl
      { price := 100, amount := 1 } { price := 101, amount := 2 } rfl rfl).1,
   (book_time_fallback_amended ExchangeId.mexc ()
      { channel := "ch", create_time := some 1000, send_time := some (-1)
        body := some (.publicAggreBookTicker
          { bid_price := "100", bid_quantity := "1"
            ask_price := "101", ask_quantity := "2" }) } ⟨5⟩ _ rfl
      { price := 100, amount := 1 } { price := 101, amount := 2 } rfl rfl).2.2.1
      (-1) rfl rfl⟩

end BarterMexc
